import Mathlib

/-!
# Breakout simulation core: shallow embedding and verification

This file embeds the simulation core of the Breakout (Pong-variant) game:
the per-frame state transition (`updateState` with its sub-updates
`updatePaddles`, `updateServingPaddle`, `updateBall`, `updateScore`,
and `createState`), and the modular collision detector / responder
(`detectCollisions`, `handleCollisions` with its three handlers).

JavaScript numbers are modelled as real numbers; the keyboard input set is
modelled by membership flags for the five keys the simulation reads;
`servingPaddle` (`0 | 1 | null`) is `Option (Fin 2)`; the score pair is a
pair of naturals.  Functions that mutate the state object in place are
rendered as functions returning the updated value, mirroring the order in
which the source assigns fields.
-/

open scoped Classical

noncomputable section

namespace Breakout

/-- Position in x, y coordinates. -/
structure Pos where
  x : ℝ
  y : ℝ

/-- The walls / bounding box of the game. -/
structure Boundaries where
  xMin : ℝ
  xMax : ℝ
  yMin : ℝ
  yMax : ℝ

/-- The ball: position, speed in pixels per frame (0 is stopped), and
angle in radians (0 points toward increasing x, π/2 toward increasing y). -/
structure Ball where
  pos : Pos
  speed : ℝ
  angle : ℝ

/-- A paddle, carrying its center position. -/
structure Paddle where
  pos : Pos

/-- The whole game state: boundaries, ball, the two paddles
(first = top, second = bottom), which paddle is serving (if any),
and the score pair. -/
structure GameState where
  boundaries : Boundaries
  ball : Ball
  paddles : Paddle × Paddle
  servingPaddle : Option (Fin 2)
  score : ℕ × ℕ

/-- Membership of the five keys the simulation reads in the pressed-key set. -/
structure Inputs where
  a : Bool
  d : Bool
  arrowLeft : Bool
  arrowRight : Bool
  space : Bool

def BALL_RADIUS : ℝ := 7.5

def BALL_SPEED : ℝ := 3

def PADDLE_WIDTH : ℝ := 80

def PADDLE_HEIGHT : ℝ := 15

def PADDLE_SPEED : ℝ := 2

/-- How far from the edge the paddle is positioned. -/
def PADDLE_OFFSET_Y : ℝ := 20

/-- `state.paddles[i]` for `i : Fin 2`. -/
def paddleAt (paddles : Paddle × Paddle) (i : Fin 2) : Paddle :=
  if i = 0 then paddles.1 else paddles.2

/-- The starting position / initial state of the game (`createState`),
from the canvas width and height. -/
def createState (width height : ℝ) : GameState :=
  { score := (0, 0)
    boundaries := { xMin := 0, xMax := width, yMin := 0, yMax := height }
    ball := { pos := { x := width / 2, y := PADDLE_OFFSET_Y + PADDLE_HEIGHT / 2 }
              speed := 3
              angle := Real.pi / 3 }
    paddles := ({ pos := { x := width / 2, y := PADDLE_OFFSET_Y } },
                { pos := { x := width / 2, y := height - PADDLE_OFFSET_Y } })
    servingPaddle := some 0 }

/-- `updatePaddles`: move the top paddle on `a`/`d`, the bottom paddle on
`ArrowLeft`/`ArrowRight`, each movement clamped to
`[xMin + PADDLE_WIDTH/2, xMax - PADDLE_WIDTH/2]`. -/
def updatePaddles (state : GameState) (inputs : Inputs) : Paddle × Paddle :=
  let xMin := state.boundaries.xMin + PADDLE_WIDTH / 2
  let xMax := state.boundaries.xMax - PADDLE_WIDTH / 2
  let p0 := state.paddles.1
  let p0 : Paddle :=
    if inputs.a then { pos := { x := max xMin (p0.pos.x - PADDLE_SPEED), y := p0.pos.y } } else p0
  let p0 : Paddle :=
    if inputs.d then { pos := { x := min xMax (p0.pos.x + PADDLE_SPEED), y := p0.pos.y } } else p0
  let p1 := state.paddles.2
  let p1 : Paddle :=
    if inputs.arrowLeft then
      { pos := { x := max xMin (p1.pos.x - PADDLE_SPEED), y := p1.pos.y } }
    else p1
  let p1 : Paddle :=
    if inputs.arrowRight then
      { pos := { x := min xMax (p1.pos.x + PADDLE_SPEED), y := p1.pos.y } }
    else p1
  (p0, p1)

/-- `updateServingPaddle`: if the space bar is pressed the ball is released
by whichever paddle is serving; otherwise everything is left unchanged. -/
def updateServingPaddle (state : GameState) (inputs : Inputs) : Option (Fin 2) :=
  match state.servingPaddle with
  | none => none
  | some i => if inputs.space then none else some i

/-- The strict containment test of the ball center in a paddle's
rectangle, as written in the paddle-collision checks. -/
def insidePaddle (pos : Pos) (paddle : Paddle) : Prop :=
  paddle.pos.x - PADDLE_WIDTH / 2 < pos.x ∧ pos.x < paddle.pos.x + PADDLE_WIDTH / 2 ∧
    paddle.pos.y - PADDLE_HEIGHT / 2 < pos.y ∧ pos.y < paddle.pos.y + PADDLE_HEIGHT / 2

/-- The paddle-bounce branch of `updateBall`: tilt from the horizontal
offset of the hit, outgoing direction from the sign of `asin (sin angle)`,
and `pos.y` recomputed from the old ball. -/
def paddleBounce (pos : Pos) (paddle : Paddle) (oldBall : Ball) : Ball :=
  let tilt := Real.pi * ((pos.x - paddle.pos.x) / (PADDLE_WIDTH + 20))
  let angle :=
    if 0 < Real.arcsin (Real.sin oldBall.angle) then -(Real.pi / 2) + tilt
    else Real.pi / 2 - tilt
  { pos := { x := pos.x, y := oldBall.pos.y + oldBall.speed * Real.sin angle }
    speed := oldBall.speed
    angle := angle }

/-- `updateBall` of the final single-file version: serve position tracking,
launch on the frame after release, then the Euler step with the paddle
bounce, the wall bounce and the free-flight cases, in source order. -/
def updateBall (state oldState : GameState) : Ball :=
  match state.servingPaddle with
  | some i =>
      let paddle := paddleAt state.paddles i
      let offset := PADDLE_HEIGHT / 2 + BALL_RADIUS + 1
      let y := if i = 0 then paddle.pos.y + offset else paddle.pos.y - offset
      { pos := { x := paddle.pos.x, y := y }, speed := 0, angle := 0 }
  | none =>
      let oldBall := state.ball
      if oldBall.speed = 0 then
        let angle := if oldState.servingPaddle = some 0 then Real.pi / 2 else -(Real.pi / 2)
        { pos := oldBall.pos, speed := BALL_SPEED, angle := angle }
      else
        let pos : Pos :=
          { x := oldBall.pos.x + oldBall.speed * Real.cos oldBall.angle
            y := oldBall.pos.y + oldBall.speed * Real.sin oldBall.angle }
        if insidePaddle pos state.paddles.1 then paddleBounce pos state.paddles.1 oldBall
        else if insidePaddle pos state.paddles.2 then paddleBounce pos state.paddles.2 oldBall
        else if pos.x - BALL_RADIUS < state.boundaries.xMin ∨
            pos.x + BALL_RADIUS > state.boundaries.xMax then
          let angle := Real.pi - oldBall.angle
          { pos := { x := oldBall.pos.x + oldBall.speed * Real.cos angle
                     y := oldBall.pos.y + oldBall.speed * Real.sin angle }
            speed := oldBall.speed
            angle := angle }
        else
          { pos := pos, speed := oldBall.speed, angle := oldBall.angle }

/-- `updateScore`: top goal gives Player 2 a point and the serve to
paddle 0; bottom goal gives Player 1 a point and the serve to paddle 1;
otherwise nothing changes. -/
def updateScore (state : GameState) : (ℕ × ℕ) × Option (Fin 2) :=
  if state.ball.pos.y - BALL_RADIUS < state.boundaries.yMin then
    ((state.score.1, state.score.2 + 1), some 0)
  else if state.ball.pos.y + BALL_RADIUS > state.boundaries.yMax then
    ((state.score.1 + 1, state.score.2), some 1)
  else (state.score, none)

/-- The first (tentative) ball computation of `updateState`:
`updateBall` on the state carrying the new paddles and the tentative
serve state, with the old state as second argument. -/
def tentativeBall (s : GameState) (i : Inputs) : Ball :=
  updateBall
    { s with paddles := updatePaddles s i, servingPaddle := updateServingPaddle s i } s

/-- `updateState`: tentative serve state and new paddles, tentative ball,
score update from the tentative ball; on a goal the new server overrides
the tentative serve state and the ball is recomputed (from the old state,
whose paddles are the pre-movement ones) under the corrected serve state. -/
def updateState (s : GameState) (i : Inputs) : GameState :=
  match (updateScore { s with ball := tentativeBall s i }).2 with
  | some k =>
      { s with
        servingPaddle := some k
        paddles := updatePaddles s i
        ball := updateBall { s with servingPaddle := some k } s
        score := (updateScore { s with ball := tentativeBall s i }).1 }
  | none =>
      { s with
        servingPaddle := updateServingPaddle s i
        paddles := updatePaddles s i
        ball := tentativeBall s i
        score := (updateScore { s with ball := tentativeBall s i }).1 }

/-- The states reachable from the initial state of a `width × height`
board by iterating the per-frame transition. -/
inductive Reachable (width height : ℝ) : GameState → Prop
  | init : Reachable width height (createState width height)
  | step (s : GameState) (i : Inputs) :
      Reachable width height s → Reachable width height (updateState s i)

/-- The side a held ball sits on: below the top paddle (`+1`),
above the bottom paddle (`-1`). -/
def serveDir (i : Fin 2) : ℝ := if i = 0 then 1 else -1

/-! ## The collision-detector module (`collision-detectors.js`) -/

/-- Which wall a `ball.wall` collision hit. -/
inductive WallSide
  | left
  | right

/-- Which goal a `ball.goal` collision crossed. -/
inductive GoalSide
  | top
  | bottom

/-- A collision event: `ball.wall`, `ball.goal` or `ball.paddle`. -/
inductive Collision
  | ballWall (wall : WallSide)
  | ballGoal (goal : GoalSide)
  | ballPaddle (paddle : Fin 2)

/-- `detectBallWallCollision`: is the ball bouncing off either wall. -/
def detectBallWallCollision (state : GameState) : Option Collision :=
  if state.ball.pos.x - BALL_RADIUS < state.boundaries.xMin then
    some (Collision.ballWall WallSide.left)
  else if state.ball.pos.x + BALL_RADIUS > state.boundaries.xMax then
    some (Collision.ballWall WallSide.right)
  else none

/-- `detectBallGoalCollision`: does the ball reach either goal. -/
def detectBallGoalCollision (state : GameState) : Option Collision :=
  if state.ball.pos.y - BALL_RADIUS < state.boundaries.yMin then
    some (Collision.ballGoal GoalSide.top)
  else if state.ball.pos.y + BALL_RADIUS > state.boundaries.yMax then
    some (Collision.ballGoal GoalSide.bottom)
  else none

/-- `detectBallPaddleCollision`: is the ball center inside either
paddle's rectangle, checked in paddle index order. -/
def detectBallPaddleCollision (state : GameState) : Option Collision :=
  if insidePaddle state.ball.pos state.paddles.1 then some (Collision.ballPaddle 0)
  else if insidePaddle state.ball.pos state.paddles.2 then some (Collision.ballPaddle 1)
  else none

/-- `detectCollisions`: run the three detectors in registration order
(wall, goal, paddle) and collect the fired events; the JavaScript `Set`
iterates in insertion order, so the event set is a list in that order. -/
def detectCollisions (state : GameState) : List Collision :=
  (detectBallWallCollision state).toList ++ (detectBallGoalCollision state).toList ++
    (detectBallPaddleCollision state).toList

/-- `handleBallWallCollision`: reflect the angle (`π -` old angle) and
recompute `pos.x` from the old ball's position and speed. -/
def handleBallWallCollision (state oldState : GameState) : GameState :=
  let angle := Real.pi - oldState.ball.angle
  { state with
    ball := { state.ball with
      angle := angle
      pos := { x := oldState.ball.pos.x + oldState.ball.speed * Real.cos angle
               y := state.ball.pos.y } } }

/-- `handleBallPaddleCollision`: tilt from the current ball's horizontal
offset on the hit paddle, outgoing direction from `asin (sin oldAngle)`,
and `pos.y` recomputed from the old ball and the new angle. -/
def handleBallPaddleCollision (i : Fin 2) (state oldState : GameState) : GameState :=
  let paddle := paddleAt state.paddles i
  let tilt := Real.pi * ((state.ball.pos.x - paddle.pos.x) / (PADDLE_WIDTH + 20))
  let angle :=
    if 0 < Real.arcsin (Real.sin oldState.ball.angle) then -(Real.pi / 2) + tilt
    else Real.pi / 2 - tilt
  { state with
    ball := { state.ball with
      angle := angle
      pos := { x := state.ball.pos.x
               y := oldState.ball.pos.y + oldState.ball.speed * Real.sin angle } } }

/-- `handleBallGoalCollision`: increment the scoring player's counter and
hand the serve to the paddle that was scored on. -/
def handleBallGoalCollision (goal : GoalSide) (state : GameState) : GameState :=
  match goal with
  | GoalSide.top => { state with score := (state.score.1, state.score.2 + 1), servingPaddle := some 0 }
  | GoalSide.bottom => { state with score := (state.score.1 + 1, state.score.2), servingPaddle := some 1 }

/-- Dispatch one collision event to its handler. -/
def handleCollision (c : Collision) (state oldState : GameState) : GameState :=
  match c with
  | Collision.ballGoal g => handleBallGoalCollision g state
  | Collision.ballPaddle i => handleBallPaddleCollision i state oldState
  | Collision.ballWall _ => handleBallWallCollision state oldState

/-- `handleCollisions`: apply every detected event's handler, in event-set
iteration order, each mutating the state the previous one produced. -/
def handleCollisions (collisions : List Collision) (state oldState : GameState) : GameState :=
  match collisions with
  | [] => state
  | c :: rest => handleCollisions rest (handleCollision c state oldState) oldState

/-! ## Concrete states and inputs used to instantiate the theorems -/

/-- The Euler step of the free-flight ball, `pos + speed·(cos angle, sin angle)`. -/
def eulerPos (b : Ball) : Pos :=
  { x := b.pos.x + b.speed * Real.cos b.angle, y := b.pos.y + b.speed * Real.sin b.angle }

/-- No key pressed. -/
def noInputs : Inputs := ⟨false, false, false, false, false⟩

/-- Only the `a` key (top paddle left) pressed. -/
def leftInput : Inputs := ⟨true, false, false, false, false⟩

/-- Only the space bar (release serve) pressed. -/
def spaceInput : Inputs := ⟨false, false, false, false, true⟩

/-- A 500 × 500 board. -/
def board500 : Boundaries := ⟨0, 500, 0, 500⟩

/-- The top paddle in its starting position on a 500 × 500 board. -/
def topPad : Paddle := ⟨⟨250, 20⟩⟩

/-- The bottom paddle in its starting position on a 500 × 500 board. -/
def botPad : Paddle := ⟨⟨250, 480⟩⟩

/-- A free-flight ball about to cross the top goal while the top paddle
is being moved left. -/
def goalFrameState : GameState :=
  ⟨board500, ⟨⟨250, 9⟩, 3, -(Real.pi / 2)⟩, (topPad, botPad), none, (0, 0)⟩

/-- A serving state whose top paddle sits beyond the top goal line, so the
held ball itself registers a goal. -/
def sunkenPaddleState : GameState :=
  ⟨board500, ⟨⟨250, 0⟩, 0, 0⟩, (⟨⟨250, -100⟩⟩, botPad), some 0, (0, 0)⟩

/-- An ordinary held-serve state: paddle 0 serving, ball pinned at its
release point. -/
def heldState : GameState :=
  ⟨board500, ⟨⟨250, 36⟩, 0, 0⟩, (topPad, botPad), some 0, (0, 0)⟩

/-- A degenerate 500 × 10 board on which the ball satisfies both goal
conditions at once. -/
def bothGoalsState : GameState :=
  ⟨⟨0, 500, 0, 10⟩, ⟨⟨250, 5⟩, 0, 0⟩, (topPad, botPad), none, (0, 0)⟩

/-- A ball breaching only the bottom goal. -/
def bottomGoalState : GameState :=
  ⟨board500, ⟨⟨250, 495⟩, 0, 0⟩, (topPad, botPad), none, (0, 0)⟩

/-- A ball overlapping the left wall, moving straight left. -/
def nearLeftWallState : GameState :=
  ⟨board500, ⟨⟨5, 250⟩, 3, Real.pi⟩, (topPad, botPad), none, (0, 0)⟩

/-- A ball simultaneously overlapping the left wall and inside the top
paddle's rectangle (the paddle is parked near the wall). -/
def cornerHitState : GameState :=
  ⟨board500, ⟨⟨5, 20⟩, 3, 0⟩, (⟨⟨30, 20⟩⟩, botPad), none, (0, 0)⟩

/-- A ball dead-center on the top paddle, previously moving straight down. -/
def centerHitState : GameState :=
  ⟨board500, ⟨⟨250, 20⟩, 3, Real.pi / 2⟩, (topPad, botPad), none, (0, 0)⟩

/-! ## Basic lemmas about the sub-updates -/

theorem updateServingPaddle_keep (s : GameState) (i : Inputs) (k : Fin 2)
    (hs : s.servingPaddle = some k) (hi : i.space = false) :
    updateServingPaddle s i = some k := by
  unfold updateServingPaddle
  rw [hs, hi]
  simp

theorem updateServingPaddle_release (s : GameState) (i : Inputs) (k : Fin 2)
    (hs : s.servingPaddle = some k) (hi : i.space = true) :
    updateServingPaddle s i = none := by
  unfold updateServingPaddle
  rw [hs, hi]
  simp

theorem updateServingPaddle_flight (s : GameState) (i : Inputs)
    (hs : s.servingPaddle = none) : updateServingPaddle s i = none := by
  unfold updateServingPaddle
  rw [hs]

theorem updatePaddles_y (s : GameState) (i : Inputs) :
    (updatePaddles s i).1.pos.y = s.paddles.1.pos.y ∧
      (updatePaddles s i).2.pos.y = s.paddles.2.pos.y := by
  unfold updatePaddles
  dsimp only
  constructor
  · split_ifs <;> rfl
  · split_ifs <;> rfl

theorem updateBall_serving (st old : GameState) (k : Fin 2) (h : st.servingPaddle = some k) :
    updateBall st old =
      { pos := { x := (paddleAt st.paddles k).pos.x
                 y := (paddleAt st.paddles k).pos.y +
                   serveDir k * (PADDLE_HEIGHT / 2 + BALL_RADIUS + 1) }
        speed := 0
        angle := 0 } := by
  unfold updateBall
  rw [h]
  fin_cases k <;> simp [serveDir, paddleAt] <;> ring

theorem updateScore_top (s : GameState)
    (h : s.ball.pos.y - BALL_RADIUS < s.boundaries.yMin) :
    updateScore s = ((s.score.1, s.score.2 + 1), some 0) := by
  unfold updateScore
  rw [if_pos h]

theorem updateScore_bottom (s : GameState)
    (h1 : ¬ (s.ball.pos.y - BALL_RADIUS < s.boundaries.yMin))
    (h2 : s.ball.pos.y + BALL_RADIUS > s.boundaries.yMax) :
    updateScore s = ((s.score.1 + 1, s.score.2), some 1) := by
  unfold updateScore
  rw [if_neg h1, if_pos h2]

theorem updateScore_still (s : GameState)
    (h1 : ¬ (s.ball.pos.y - BALL_RADIUS < s.boundaries.yMin))
    (h2 : ¬ (s.ball.pos.y + BALL_RADIUS > s.boundaries.yMax)) :
    updateScore s = (s.score, none) := by
  unfold updateScore
  rw [if_neg h1, if_neg h2]

theorem updateState_goal (s : GameState) (i : Inputs) (k : Fin 2)
    (h : (updateScore { s with ball := tentativeBall s i }).2 = some k) :
    updateState s i =
      { s with
        servingPaddle := some k
        paddles := updatePaddles s i
        ball := updateBall { s with servingPaddle := some k } s
        score := (updateScore { s with ball := tentativeBall s i }).1 } := by
  unfold updateState
  rw [h]

theorem updateState_noGoal (s : GameState) (i : Inputs)
    (h : (updateScore { s with ball := tentativeBall s i }).2 = none) :
    updateState s i =
      { s with
        servingPaddle := updateServingPaddle s i
        paddles := updatePaddles s i
        ball := tentativeBall s i
        score := (updateScore { s with ball := tentativeBall s i }).1 } := by
  unfold updateState
  rw [h]

theorem tentativeBall_serving (s : GameState) (i : Inputs) (k : Fin 2)
    (hs : s.servingPaddle = some k) (hi : i.space = false) :
    tentativeBall s i =
      { pos := { x := (paddleAt (updatePaddles s i) k).pos.x
                 y := (paddleAt (updatePaddles s i) k).pos.y +
                   serveDir k * (PADDLE_HEIGHT / 2 + BALL_RADIUS + 1) }
        speed := 0
        angle := 0 } := by
  unfold tentativeBall
  exact updateBall_serving _ _ k (updateServingPaddle_keep s i k hs hi)

theorem tentativeBall_release (s : GameState) (i : Inputs) (k : Fin 2)
    (hs : s.servingPaddle = some k) (hsp : s.ball.speed = 0) (hi : i.space = true) :
    tentativeBall s i =
      { pos := s.ball.pos
        speed := BALL_SPEED
        angle := if k = 0 then Real.pi / 2 else -(Real.pi / 2) } := by
  unfold tentativeBall updateBall
  rw [updateServingPaddle_release s i k hs hi]
  simp only [hs, hsp, if_pos rfl, Option.some.injEq]
  rfl

theorem tentativeBall_flight (s : GameState) (i : Inputs)
    (h0 : updateServingPaddle s i = none) (hsp : ¬ s.ball.speed = 0)
    (hp1 : ¬ insidePaddle (eulerPos s.ball) (updatePaddles s i).1)
    (hp2 : ¬ insidePaddle (eulerPos s.ball) (updatePaddles s i).2)
    (hwl : ¬ ((eulerPos s.ball).x - BALL_RADIUS < s.boundaries.xMin))
    (hwr : ¬ ((eulerPos s.ball).x + BALL_RADIUS > s.boundaries.xMax)) :
    tentativeBall s i =
      { pos := eulerPos s.ball, speed := s.ball.speed, angle := s.ball.angle } := by
  unfold tentativeBall updateBall
  rw [h0]
  dsimp only
  have hp1' : ¬ insidePaddle
      { x := s.ball.pos.x + s.ball.speed * Real.cos s.ball.angle,
        y := s.ball.pos.y + s.ball.speed * Real.sin s.ball.angle } (updatePaddles s i).1 := hp1
  have hp2' : ¬ insidePaddle
      { x := s.ball.pos.x + s.ball.speed * Real.cos s.ball.angle,
        y := s.ball.pos.y + s.ball.speed * Real.sin s.ball.angle } (updatePaddles s i).2 := hp2
  have hw' : ¬ (s.ball.pos.x + s.ball.speed * Real.cos s.ball.angle - BALL_RADIUS <
        s.boundaries.xMin ∨
      s.ball.pos.x + s.ball.speed * Real.cos s.ball.angle + BALL_RADIUS > s.boundaries.xMax) :=
    not_or.mpr ⟨hwl, hwr⟩
  rw [if_neg hsp, if_neg hp1', if_neg hp2', if_neg hw']
  rfl

/-- A full frame on a free-flight ball that meets nothing: the committed
ball is the plain Euler step with speed and angle unchanged. -/
theorem flight_step (s : GameState) (i : Inputs)
    (h0 : s.servingPaddle = none) (hsp : ¬ s.ball.speed = 0)
    (hp1 : ¬ insidePaddle (eulerPos s.ball) (updatePaddles s i).1)
    (hp2 : ¬ insidePaddle (eulerPos s.ball) (updatePaddles s i).2)
    (hwl : ¬ ((eulerPos s.ball).x - BALL_RADIUS < s.boundaries.xMin))
    (hwr : ¬ ((eulerPos s.ball).x + BALL_RADIUS > s.boundaries.xMax))
    (hgt : ¬ ((eulerPos s.ball).y - BALL_RADIUS < s.boundaries.yMin))
    (hgb : ¬ ((eulerPos s.ball).y + BALL_RADIUS > s.boundaries.yMax)) :
    (updateState s i).ball =
      { pos := eulerPos s.ball, speed := s.ball.speed, angle := s.ball.angle } := by
  have ht := tentativeBall_flight s i (updateServingPaddle_flight s i h0) hsp hp1 hp2 hwl hwr
  have hsc : (updateScore { s with ball := tentativeBall s i }).2 = none := by
    rw [updateScore_still _ (by rw [ht]; exact hgt) (by rw [ht]; exact hgb)]
  rw [updateState_noGoal s i hsc, ht]

/-! ## The claims -/

/-- C7: the score/serve update maps a top goal (`ball.pos.y - BALL_RADIUS
< yMin`) to incrementing player 2's counter with next server paddle 0,
and a bottom goal to incrementing player 1's counter with next server
paddle 1; when both goal conditions hold the top-goal branch wins by
check order (the top case needs no bottom-side hypothesis). -/
theorem C7_score_goal_mapping (s : GameState) :
    (s.ball.pos.y - BALL_RADIUS < s.boundaries.yMin →
      updateScore s = ((s.score.1, s.score.2 + 1), some 0)) ∧
    (¬ (s.ball.pos.y - BALL_RADIUS < s.boundaries.yMin) →
      s.ball.pos.y + BALL_RADIUS > s.boundaries.yMax →
      updateScore s = ((s.score.1 + 1, s.score.2), some 1)) :=
  ⟨fun h => updateScore_top s h, fun h1 h2 => updateScore_bottom s h1 h2⟩

/-- Witness for C7: on a squashed board whose ball meets both goal
conditions, the top-goal branch is the one taken; a bottom-only breach
takes the bottom branch. -/
theorem C7_score_goal_mapping_witness :
    updateScore bothGoalsState = ((0, 1), some 0) ∧
      updateScore bottomGoalState = ((1, 0), some 1) := by
  constructor
  · exact (C7_score_goal_mapping bothGoalsState).1
      (by norm_num [bothGoalsState, BALL_RADIUS])
  · exact (C7_score_goal_mapping bottomGoalState).2
      (by norm_num [bottomGoalState, BALL_RADIUS, board500])
      (by norm_num [bottomGoalState, BALL_RADIUS, board500])

/-- C10 counterexample: `createState` on a 10-wide board, whose paddle
clamping bounds invert (`xMin + width/2 > xMax - width/2`), still returns
an ordinary fully-populated state — construction is not rejected. -/
theorem C10_counterexample :
    (createState 10 500).boundaries.xMin + PADDLE_WIDTH / 2 >
        (createState 10 500).boundaries.xMax - PADDLE_WIDTH / 2 ∧
      createState 10 500 =
        { boundaries := ⟨0, 10, 0, 500⟩
          ball := ⟨⟨5, 27.5⟩, 3, Real.pi / 3⟩
          paddles := (⟨⟨5, 20⟩⟩, ⟨⟨5, 480⟩⟩)
          servingPaddle := some 0
          score := (0, 0) } := by
  constructor
  · norm_num [createState, PADDLE_WIDTH]
  · norm_num [createState, PADDLE_OFFSET_Y, PADDLE_HEIGHT]

/-- C10 amended: game-state construction performs no validation at all:
for every board, including one whose clamping bounds invert, it returns
the standard initial state (zero score, top paddle serving, paddles at
the horizontal center). -/
theorem C10_amended_total_construction (width height : ℝ) :
    (createState width height).boundaries = ⟨0, width, 0, height⟩ ∧
    (createState width height).score = (0, 0) ∧
    (createState width height).servingPaddle = some 0 ∧
    (createState width height).paddles =
      (⟨⟨width / 2, PADDLE_OFFSET_Y⟩⟩, ⟨⟨width / 2, height - PADDLE_OFFSET_Y⟩⟩) :=
  ⟨rfl, rfl, rfl, rfl⟩

/-- C5: on a frame where the wall detector fires, the wall response sets
the new angle to `π - oldAngle`, recomputes `pos.x` from the old ball's
position and speed under the new angle, and leaves the vertical velocity
component `speed · sin angle` unchanged (since `sin (π - a) = sin a`). -/
theorem C5_wall_response (state oldState : GameState)
    (hfire : detectBallWallCollision state ≠ none) :
    (handleBallWallCollision state oldState).ball.angle = Real.pi - oldState.ball.angle ∧
    (handleBallWallCollision state oldState).ball.pos.x =
      oldState.ball.pos.x + oldState.ball.speed * Real.cos (Real.pi - oldState.ball.angle) ∧
    oldState.ball.speed * Real.sin ((handleBallWallCollision state oldState).ball.angle) =
      oldState.ball.speed * Real.sin oldState.ball.angle := by
  refine ⟨rfl, rfl, ?_⟩
  have : Real.sin (Real.pi - oldState.ball.angle) = Real.sin oldState.ball.angle :=
    Real.sin_pi_sub oldState.ball.angle
  simp [handleBallWallCollision, this]

/-- Witness for C5: a ball overlapping the left wall fires the detector,
and the response reflects its angle to `π - oldAngle`. -/
theorem C5_wall_response_witness :
    detectBallWallCollision nearLeftWallState ≠ none ∧
      (handleBallWallCollision nearLeftWallState nearLeftWallState).ball.angle =
        Real.pi - nearLeftWallState.ball.angle := by
  have hfire : detectBallWallCollision nearLeftWallState ≠ none := by
    unfold detectBallWallCollision
    rw [if_pos (by norm_num [nearLeftWallState, BALL_RADIUS, board500])]
    simp
  exact ⟨hfire, (C5_wall_response nearLeftWallState nearLeftWallState hfire).1⟩

/-- C4: the paddle response computes
`tilt = π · (ballX - paddleX) / (PADDLE_WIDTH + 20)`, picks
`-π/2 + tilt` when `asin (sin oldAngle) > 0` and `π/2 - tilt` otherwise,
recomputes `pos.y` from the old position, old speed and the new angle,
and a dead-center hit (`ballX = paddleX`) rebounds at exactly `±π/2`. -/
theorem C4_paddle_response (state oldState : GameState) (i : Fin 2) :
    ((handleBallPaddleCollision i state oldState).ball.angle =
      if 0 < Real.arcsin (Real.sin oldState.ball.angle) then
        -(Real.pi / 2) +
          Real.pi * ((state.ball.pos.x - (paddleAt state.paddles i).pos.x) / (PADDLE_WIDTH + 20))
      else
        Real.pi / 2 -
          Real.pi * ((state.ball.pos.x - (paddleAt state.paddles i).pos.x) / (PADDLE_WIDTH + 20))) ∧
    (handleBallPaddleCollision i state oldState).ball.pos.y =
      oldState.ball.pos.y +
        oldState.ball.speed * Real.sin ((handleBallPaddleCollision i state oldState).ball.angle) ∧
    (state.ball.pos.x = (paddleAt state.paddles i).pos.x →
      (handleBallPaddleCollision i state oldState).ball.angle = -(Real.pi / 2) ∨
        (handleBallPaddleCollision i state oldState).ball.angle = Real.pi / 2) := by
  refine ⟨?_, ?_, ?_⟩
  · by_cases h : 0 < Real.arcsin (Real.sin oldState.ball.angle) <;>
      simp [handleBallPaddleCollision, h]
  · by_cases h : 0 < Real.arcsin (Real.sin oldState.ball.angle) <;>
      simp [handleBallPaddleCollision, h]
  · intro hx
    by_cases h : 0 < Real.arcsin (Real.sin oldState.ball.angle)
    · left
      simp [handleBallPaddleCollision, h, hx]
    · right
      simp [handleBallPaddleCollision, h, hx]

/-- Witness for C4: a dead-center hit on the top paddle by a ball that
was moving straight down rebounds at exactly `-π/2` or `π/2`. -/
theorem C4_paddle_response_witness :
    centerHitState.ball.pos.x = (paddleAt centerHitState.paddles 0).pos.x ∧
      ((handleBallPaddleCollision 0 centerHitState centerHitState).ball.angle = -(Real.pi / 2) ∨
        (handleBallPaddleCollision 0 centerHitState centerHitState).ball.angle = Real.pi / 2) := by
  have hx : centerHitState.ball.pos.x = (paddleAt centerHitState.paddles 0).pos.x := by
    norm_num [centerHitState, paddleAt, topPad]
  exact ⟨hx, (C4_paddle_response centerHitState centerHitState 0).2.2 hx⟩

/-- The goal detector only ever produces goal events. -/
theorem detectBallGoalCollision_cases (s : GameState) :
    detectBallGoalCollision s = none ∨
      ∃ g, detectBallGoalCollision s = some (Collision.ballGoal g) := by
  unfold detectBallGoalCollision
  split_ifs
  · exact Or.inr ⟨GoalSide.top, rfl⟩
  · exact Or.inr ⟨GoalSide.bottom, rfl⟩
  · exact Or.inl rfl

/-- The goal response never touches the ball. -/
theorem handleBallGoalCollision_ball (g : GoalSide) (state : GameState) :
    (handleBallGoalCollision g state).ball = state.ball := by
  cases g <;> rfl

/-- The goal response never touches the paddles. -/
theorem handleBallGoalCollision_paddles (g : GoalSide) (state : GameState) :
    (handleBallGoalCollision g state).paddles = state.paddles := by
  cases g <;> rfl

/-- The ball produced by the paddle response only depends on the incoming
ball, the paddles and the old state. -/
theorem handleBallPaddleCollision_ball_congr (i : Fin 2) (st1 st2 old : GameState)
    (hb : st1.ball = st2.ball) (hp : st1.paddles = st2.paddles) :
    (handleBallPaddleCollision i st1 old).ball = (handleBallPaddleCollision i st2 old).ball := by
  unfold handleBallPaddleCollision
  dsimp only
  rw [hb, hp]

/-- C3: when the detected event set contains both a wall and a paddle
collision, the collision response applies both handlers in event-set
iteration order (wall first, then the paddle, with a goal event — which
never touches the ball — possibly in between): the resulting ball is the
paddle response applied after the wall response, and it still carries the
wall response's recomputed `pos.x`; the semantics is apply-all-events,
not first-match-wins. -/
theorem C3_apply_all_events (state oldState : GameState) (w : WallSide) (i : Fin 2)
    (hw : detectBallWallCollision state = some (Collision.ballWall w))
    (hp : detectBallPaddleCollision state = some (Collision.ballPaddle i)) :
    (handleCollisions (detectCollisions state) state oldState).ball =
      (handleBallPaddleCollision i (handleBallWallCollision state oldState) oldState).ball ∧
    (handleCollisions (detectCollisions state) state oldState).ball.pos.x =
      oldState.ball.pos.x + oldState.ball.speed * Real.cos (Real.pi - oldState.ball.angle) := by
  have hmain : (handleCollisions (detectCollisions state) state oldState).ball =
      (handleBallPaddleCollision i (handleBallWallCollision state oldState) oldState).ball := by
    unfold detectCollisions
    rw [hw, hp]
    rcases detectBallGoalCollision_cases state with hg | ⟨g, hg⟩ <;> rw [hg]
    · rfl
    · show (handleBallPaddleCollision i
          (handleBallGoalCollision g (handleBallWallCollision state oldState)) oldState).ball = _
      exact handleBallPaddleCollision_ball_congr i _ _ oldState
        (handleBallGoalCollision_ball g _) (handleBallGoalCollision_paddles g _)
  refine ⟨hmain, ?_⟩
  rw [hmain]
  rfl

/-- Witness for C3: a ball overlapping the left wall and inside the
top paddle's rectangle fires both detectors, and both responses apply. -/
theorem C3_apply_all_events_witness :
    detectBallWallCollision cornerHitState = some (Collision.ballWall WallSide.left) ∧
    detectBallPaddleCollision cornerHitState = some (Collision.ballPaddle 0) ∧
    (handleCollisions (detectCollisions cornerHitState) cornerHitState cornerHitState).ball =
      (handleBallPaddleCollision 0 (handleBallWallCollision cornerHitState cornerHitState)
          cornerHitState).ball := by
  have hw : detectBallWallCollision cornerHitState = some (Collision.ballWall WallSide.left) := by
    unfold detectBallWallCollision
    rw [if_pos (by norm_num [cornerHitState, BALL_RADIUS, board500])]
  have hp : detectBallPaddleCollision cornerHitState = some (Collision.ballPaddle 0) := by
    unfold detectBallPaddleCollision
    rw [if_pos (by norm_num [insidePaddle, cornerHitState, PADDLE_WIDTH, PADDLE_HEIGHT])]
  exact ⟨hw, hp, (C3_apply_all_events cornerHitState cornerHitState WallSide.left 0 hw hp).1⟩

theorem updateState_boundaries (s : GameState) (i : Inputs) :
    (updateState s i).boundaries = s.boundaries := by
  unfold updateState
  split <;> rfl

theorem updateState_paddles (s : GameState) (i : Inputs) :
    (updateState s i).paddles = updatePaddles s i := by
  unfold updateState
  split <;> rfl

theorem updatePaddles_noInputs (s : GameState) : updatePaddles s noInputs = s.paddles := rfl

/-- C8: the committed score is the score update of the tentative ball:
on a top-goal frame only player 2's counter grows, by exactly one; on a
bottom-goal frame only player 1's, by exactly one; on a frame without a
goal event the score is unchanged.  In particular each component is
non-decreasing and the two components never grow together. -/
theorem C8_score_step (s : GameState) (i : Inputs) :
    ((tentativeBall s i).pos.y - BALL_RADIUS < s.boundaries.yMin →
      (updateState s i).score = (s.score.1, s.score.2 + 1)) ∧
    (¬ ((tentativeBall s i).pos.y - BALL_RADIUS < s.boundaries.yMin) →
      (tentativeBall s i).pos.y + BALL_RADIUS > s.boundaries.yMax →
      (updateState s i).score = (s.score.1 + 1, s.score.2)) ∧
    (¬ ((tentativeBall s i).pos.y - BALL_RADIUS < s.boundaries.yMin) →
      ¬ ((tentativeBall s i).pos.y + BALL_RADIUS > s.boundaries.yMax) →
      (updateState s i).score = s.score) := by
  refine ⟨fun h => ?_, fun h1 h2 => ?_, fun h1 h2 => ?_⟩
  · have hu := updateScore_top { s with ball := tentativeBall s i } h
    rw [updateState_goal s i 0 (by rw [hu]), hu]
  · have hu := updateScore_bottom { s with ball := tentativeBall s i } h1 h2
    rw [updateState_goal s i 1 (by rw [hu]), hu]
  · have hu := updateScore_still { s with ball := tentativeBall s i } h1 h2
    rw [updateState_noGoal s i (by rw [hu]), hu]

/-- Witness for C8: a held-serve frame has no goal event, and the score
does not change. -/
theorem C8_score_step_witness :
    ¬ ((tentativeBall heldState noInputs).pos.y - BALL_RADIUS < heldState.boundaries.yMin) ∧
    ¬ ((tentativeBall heldState noInputs).pos.y + BALL_RADIUS > heldState.boundaries.yMax) ∧
    (updateState heldState noInputs).score = heldState.score := by
  have ht := tentativeBall_serving heldState noInputs 0 rfl rfl
  rw [updatePaddles_noInputs] at ht
  have h1 : ¬ ((tentativeBall heldState noInputs).pos.y - BALL_RADIUS <
      heldState.boundaries.yMin) := by
    rw [ht]
    norm_num [heldState, paddleAt, topPad, serveDir, PADDLE_HEIGHT, BALL_RADIUS, board500]
  have h2 : ¬ ((tentativeBall heldState noInputs).pos.y + BALL_RADIUS >
      heldState.boundaries.yMax) := by
    rw [ht]
    norm_num [heldState, paddleAt, topPad, serveDir, PADDLE_HEIGHT, BALL_RADIUS, board500]
  exact ⟨h1, h2, (C8_score_step heldState noInputs).2.2 h1 h2⟩

/-- A single clamped paddle update keeps both paddles inside the
clamping bounds, provided the bounds do not invert. -/
theorem updatePaddles_bounds (s : GameState) (i : Inputs)
    (hb : s.boundaries.xMin + PADDLE_WIDTH / 2 ≤ s.boundaries.xMax - PADDLE_WIDTH / 2)
    (h1l : s.boundaries.xMin + PADDLE_WIDTH / 2 ≤ s.paddles.1.pos.x)
    (h1r : s.paddles.1.pos.x ≤ s.boundaries.xMax - PADDLE_WIDTH / 2)
    (h2l : s.boundaries.xMin + PADDLE_WIDTH / 2 ≤ s.paddles.2.pos.x)
    (h2r : s.paddles.2.pos.x ≤ s.boundaries.xMax - PADDLE_WIDTH / 2) :
    (s.boundaries.xMin + PADDLE_WIDTH / 2 ≤ (updatePaddles s i).1.pos.x ∧
      (updatePaddles s i).1.pos.x ≤ s.boundaries.xMax - PADDLE_WIDTH / 2) ∧
    (s.boundaries.xMin + PADDLE_WIDTH / 2 ≤ (updatePaddles s i).2.pos.x ∧
      (updatePaddles s i).2.pos.x ≤ s.boundaries.xMax - PADDLE_WIDTH / 2) := by
  have hps : (0 : ℝ) ≤ PADDLE_SPEED := by norm_num [PADDLE_SPEED]
  unfold updatePaddles
  dsimp only
  refine ⟨⟨?_, ?_⟩, ?_, ?_⟩ <;> split_ifs <;> (try dsimp only) <;>
    first
    | exact h1l
    | exact h1r
    | exact h2l
    | exact h2r
    | exact le_max_left _ _
    | exact min_le_left _ _
    | exact max_le hb (by linarith)
    | exact le_min hb (by
        linarith [le_max_left (s.boundaries.xMin + PADDLE_WIDTH / 2)
            (s.paddles.1.pos.x - PADDLE_SPEED),
          le_max_left (s.boundaries.xMin + PADDLE_WIDTH / 2)
            (s.paddles.2.pos.x - PADDLE_SPEED)])

/-- Every reachable state keeps the board's boundaries and the two
paddles' fixed vertical positions. -/
theorem reachable_shape (width height : ℝ) (s : GameState)
    (hr : Reachable width height s) :
    s.boundaries = ⟨0, width, 0, height⟩ ∧
      s.paddles.1.pos.y = PADDLE_OFFSET_Y ∧ s.paddles.2.pos.y = height - PADDLE_OFFSET_Y := by
  induction hr with
  | init => exact ⟨rfl, rfl, rfl⟩
  | step s i hr ih =>
      refine ⟨(updateState_boundaries s i).trans ih.1, ?_, ?_⟩
      · rw [updateState_paddles s i, (updatePaddles_y s i).1, ih.2.1]
      · rw [updateState_paddles s i, (updatePaddles_y s i).2, ih.2.2]

/-- On a board at least as wide as a paddle, every reachable state keeps
both paddles' x positions inside the clamping bounds. -/
theorem reachable_paddle_bounds (width height : ℝ) (hw : 80 ≤ width) (s : GameState)
    (hr : Reachable width height s) :
    (s.boundaries.xMin + PADDLE_WIDTH / 2 ≤ s.paddles.1.pos.x ∧
      s.paddles.1.pos.x ≤ s.boundaries.xMax - PADDLE_WIDTH / 2) ∧
    (s.boundaries.xMin + PADDLE_WIDTH / 2 ≤ s.paddles.2.pos.x ∧
      s.paddles.2.pos.x ≤ s.boundaries.xMax - PADDLE_WIDTH / 2) := by
  induction hr with
  | init =>
      refine ⟨⟨?_, ?_⟩, ?_, ?_⟩ <;> norm_num [createState, PADDLE_WIDTH] <;> linarith
  | step s i hr ih =>
      have hsh := reachable_shape width height s hr
      have hb : s.boundaries.xMin + PADDLE_WIDTH / 2 ≤
          s.boundaries.xMax - PADDLE_WIDTH / 2 := by
        rw [hsh.1]
        norm_num [PADDLE_WIDTH]
        linarith
      rw [updateState_boundaries s i, updateState_paddles s i]
      exact updatePaddles_bounds s i hb ih.1.1 ih.1.2 ih.2.1 ih.2.2

/-- C9: from any reachable state of a board wide enough to hold a paddle,
one simulation step leaves each paddle's x position clamped inside
`[xMin + PADDLE_WIDTH/2, xMax - PADDLE_WIDTH/2]`. -/
theorem C9_paddle_clamped (width height : ℝ) (hw : 80 ≤ width) (s : GameState)
    (hr : Reachable width height s) (i : Inputs) :
    ((updateState s i).boundaries.xMin + PADDLE_WIDTH / 2 ≤
        (updateState s i).paddles.1.pos.x ∧
      (updateState s i).paddles.1.pos.x ≤
        (updateState s i).boundaries.xMax - PADDLE_WIDTH / 2) ∧
    ((updateState s i).boundaries.xMin + PADDLE_WIDTH / 2 ≤
        (updateState s i).paddles.2.pos.x ∧
      (updateState s i).paddles.2.pos.x ≤
        (updateState s i).boundaries.xMax - PADDLE_WIDTH / 2) :=
  reachable_paddle_bounds width height hw (updateState s i) (Reachable.step s i hr)

/-- Witness for C9: one left-move step from the initial 500 × 500 state
keeps the top paddle inside the clamping bounds. -/
theorem C9_paddle_clamped_witness :
    (updateState (createState 500 500) leftInput).boundaries.xMin + PADDLE_WIDTH / 2 ≤
      (updateState (createState 500 500) leftInput).paddles.1.pos.x :=
  (C9_paddle_clamped 500 500 (by norm_num) (createState 500 500)
    Reachable.init leftInput).1.1

theorem paddleAt_updatePaddles_y (s : GameState) (i : Inputs) (k : Fin 2) :
    (paddleAt (updatePaddles s i) k).pos.y = (paddleAt s.paddles k).pos.y := by
  fin_cases k
  · exact (updatePaddles_y s i).1
  · exact (updatePaddles_y s i).2

/-- C2: on game states (reachable states of a tall-enough board), while a
paddle is serving and the release key is not pressed, the committed ball
of the next frame has speed 0 and sits at the serving paddle's new
post-movement position, offset toward the opponent by
`PADDLE_HEIGHT/2 + BALL_RADIUS + 1`. -/
theorem C2_held_ball_rides (width height : ℝ) (s : GameState)
    (hr : Reachable width height s) (hh : 44 ≤ height) (i : Inputs) (k : Fin 2)
    (hs : s.servingPaddle = some k) (hi : i.space = false) :
    (updateState s i).servingPaddle = some k ∧
    (updateState s i).ball.speed = 0 ∧
    (updateState s i).ball.pos.x = (paddleAt (updateState s i).paddles k).pos.x ∧
    (updateState s i).ball.pos.y = (paddleAt (updateState s i).paddles k).pos.y +
      serveDir k * (PADDLE_HEIGHT / 2 + BALL_RADIUS + 1) := by
  obtain ⟨hb, hy1, hy2⟩ := reachable_shape width height s hr
  have ht := tentativeBall_serving s i k hs hi
  have hk : k = 0 ∨ k = 1 := by
    rcases k with ⟨kv, hkv⟩
    interval_cases kv
    · exact Or.inl rfl
    · exact Or.inr rfl
  have hpin : (paddleAt (updatePaddles s i) k).pos.y +
        serveDir k * (PADDLE_HEIGHT / 2 + BALL_RADIUS + 1) = 36 ∨
      (paddleAt (updatePaddles s i) k).pos.y +
        serveDir k * (PADDLE_HEIGHT / 2 + BALL_RADIUS + 1) = height - 36 := by
    rcases hk with hk | hk <;> subst hk
    · left
      rw [show paddleAt (updatePaddles s i) 0 = (updatePaddles s i).1 from rfl,
        (updatePaddles_y s i).1, hy1]
      norm_num [serveDir, PADDLE_OFFSET_Y, PADDLE_HEIGHT, BALL_RADIUS]
    · right
      rw [show paddleAt (updatePaddles s i) 1 = (updatePaddles s i).2 from rfl,
        (updatePaddles_y s i).2, hy2]
      norm_num [serveDir, PADDLE_OFFSET_Y, PADDLE_HEIGHT, BALL_RADIUS]
      ring
  have hcond1 : ¬ ((tentativeBall s i).pos.y - BALL_RADIUS < s.boundaries.yMin) := by
    rw [ht, hb]
    show ¬ ((paddleAt (updatePaddles s i) k).pos.y +
      serveDir k * (PADDLE_HEIGHT / 2 + BALL_RADIUS + 1) - BALL_RADIUS < (0 : ℝ))
    rcases hpin with hp | hp <;> rw [hp] <;> norm_num [BALL_RADIUS] <;> linarith
  have hcond2 : ¬ ((tentativeBall s i).pos.y + BALL_RADIUS > s.boundaries.yMax) := by
    rw [ht, hb]
    show ¬ ((paddleAt (updatePaddles s i) k).pos.y +
      serveDir k * (PADDLE_HEIGHT / 2 + BALL_RADIUS + 1) + BALL_RADIUS > height)
    rcases hpin with hp | hp <;> rw [hp] <;> norm_num [BALL_RADIUS] <;> linarith
  have hsc : (updateScore { s with ball := tentativeBall s i }).2 = none := by
    rw [updateScore_still _ hcond1 hcond2]
  rw [updateState_noGoal s i hsc]
  refine ⟨updateServingPaddle_keep s i k hs hi, ?_, ?_, ?_⟩
  · show (tentativeBall s i).speed = 0
    rw [ht]
  · show (tentativeBall s i).pos.x = (paddleAt (updatePaddles s i) k).pos.x
    rw [ht]
  · show (tentativeBall s i).pos.y = (paddleAt (updatePaddles s i) k).pos.y +
      serveDir k * (PADDLE_HEIGHT / 2 + BALL_RADIUS + 1)
    rw [ht]

/-- Witness for C2: from the initial state (paddle 0 serving) with no
keys pressed, the next frame still has paddle 0 serving and a stopped
ball. -/
theorem C2_held_ball_rides_witness :
    (createState 500 500).servingPaddle = some 0 ∧
    (updateState (createState 500 500) noInputs).servingPaddle = some 0 ∧
    (updateState (createState 500 500) noInputs).ball.speed = 0 := by
  have h := C2_held_ball_rides 500 500 (createState 500 500) Reachable.init
    (by norm_num) noInputs 0 rfl rfl
  exact ⟨rfl, h.1, h.2.1⟩

/-- C1 counterexample: a frame in which the ball crosses the top goal
while the `a` key moves the top paddle left.  The committed serving
paddle is paddle 0 and player 2 scores, but the committed ball is pinned
to the paddle's pre-movement x (250) while the committed paddle has
already moved to x = 248: the ball does not sit at the committed serving
paddle's release point. -/
theorem C1_counterexample :
    (updateState goalFrameState leftInput).servingPaddle = some 0 ∧
    (updateState goalFrameState leftInput).score = (0, 1) ∧
    (updateState goalFrameState leftInput).ball.pos.x ≠
      (paddleAt (updateState goalFrameState leftInput).paddles 0).pos.x := by
  have hcos : Real.cos (-(Real.pi / 2)) = 0 := by
    rw [Real.cos_neg, Real.cos_pi_div_two]
  have hsin : Real.sin (-(Real.pi / 2)) = -1 := by
    rw [Real.sin_neg, Real.sin_pi_div_two]
  have heuler : eulerPos goalFrameState.ball = ⟨250, 6⟩ := by
    simp [eulerPos, goalFrameState, hcos, hsin]
    norm_num
  have hpad : updatePaddles goalFrameState leftInput = (⟨⟨248, 20⟩⟩, ⟨⟨250, 480⟩⟩) := by
    unfold updatePaddles leftInput
    norm_num [goalFrameState, topPad, botPad, board500, PADDLE_WIDTH, PADDLE_SPEED, max_def]
  have ht := tentativeBall_flight goalFrameState leftInput rfl
    (by norm_num [goalFrameState])
    (by rw [heuler, hpad]
        norm_num [insidePaddle, PADDLE_WIDTH, PADDLE_HEIGHT])
    (by rw [heuler, hpad]
        norm_num [insidePaddle, PADDLE_WIDTH, PADDLE_HEIGHT])
    (by rw [heuler]
        norm_num [goalFrameState, board500, BALL_RADIUS])
    (by rw [heuler]
        norm_num [goalFrameState, board500, BALL_RADIUS])
  rw [heuler] at ht
  have hcond : ({ goalFrameState with
      ball := tentativeBall goalFrameState leftInput }).ball.pos.y - BALL_RADIUS <
      ({ goalFrameState with
        ball := tentativeBall goalFrameState leftInput }).boundaries.yMin := by
    show (tentativeBall goalFrameState leftInput).pos.y - BALL_RADIUS <
      goalFrameState.boundaries.yMin
    rw [ht]
    norm_num [goalFrameState, board500, BALL_RADIUS]
  have hsc : (updateScore { goalFrameState with
      ball := tentativeBall goalFrameState leftInput }).2 = some 0 := by
    rw [updateScore_top _ hcond]
  rw [updateState_goal goalFrameState leftInput 0 hsc]
  refine ⟨rfl, ?_, ?_⟩
  · show (updateScore { goalFrameState with
        ball := tentativeBall goalFrameState leftInput }).1 = (0, 1)
    rw [updateScore_top _ hcond]
    rfl
  · show (updateBall { goalFrameState with servingPaddle := some 0 } goalFrameState).pos.x ≠
      (paddleAt (updatePaddles goalFrameState leftInput) 0).pos.x
    rw [updateBall_serving _ _ 0 rfl, hpad]
    norm_num [paddleAt, goalFrameState, topPad]

/-- C1 amended: when the tentative ball registers a goal, the committed
serving paddle is the score-assigned server and the committed ball is
pinned (speed 0) at that paddle's release point computed from the
**pre-movement** paddle position: its x is the old paddle's x (which
equals the committed paddle's x whenever that paddle received no
movement input this frame), and its y is offset from the (fixed) paddle
height by half paddle height plus ball radius plus 1 toward the
opponent. -/
theorem C1_amended_goal_override (s : GameState) (i : Inputs) (k : Fin 2)
    (h : (updateScore { s with ball := tentativeBall s i }).2 = some k) :
    (updateState s i).servingPaddle = some k ∧
    (updateState s i).ball.speed = 0 ∧
    (updateState s i).ball.pos.x = (paddleAt s.paddles k).pos.x ∧
    (updateState s i).ball.pos.y = (paddleAt (updateState s i).paddles k).pos.y +
      serveDir k * (PADDLE_HEIGHT / 2 + BALL_RADIUS + 1) := by
  rw [updateState_goal s i k h]
  have hb := updateBall_serving { s with servingPaddle := some k } s k rfl
  refine ⟨rfl, ?_, ?_, ?_⟩
  · show (updateBall { s with servingPaddle := some k } s).speed = 0
    rw [hb]
  · show (updateBall { s with servingPaddle := some k } s).pos.x =
      (paddleAt s.paddles k).pos.x
    rw [hb]
  · show (updateBall { s with servingPaddle := some k } s).pos.y =
      (paddleAt (updatePaddles s i) k).pos.y + serveDir k * (PADDLE_HEIGHT / 2 + BALL_RADIUS + 1)
    rw [hb, paddleAt_updatePaddles_y s i k]

/-- Witness for C1 amended: a serving state whose paddle sits beyond the
goal line registers a goal on the held ball; after the override the
committed ball sits at the old paddle's x. -/
theorem C1_amended_goal_override_witness :
    (updateScore { sunkenPaddleState with
        ball := tentativeBall sunkenPaddleState noInputs }).2 = some 0 ∧
    (updateState sunkenPaddleState noInputs).ball.pos.x =
      (paddleAt sunkenPaddleState.paddles 0).pos.x := by
  have ht := tentativeBall_serving sunkenPaddleState noInputs 0 rfl rfl
  rw [updatePaddles_noInputs] at ht
  have hcond : ({ sunkenPaddleState with
      ball := tentativeBall sunkenPaddleState noInputs }).ball.pos.y - BALL_RADIUS <
      ({ sunkenPaddleState with
        ball := tentativeBall sunkenPaddleState noInputs }).boundaries.yMin := by
    show (tentativeBall sunkenPaddleState noInputs).pos.y - BALL_RADIUS <
      sunkenPaddleState.boundaries.yMin
    rw [ht]
    norm_num [sunkenPaddleState, paddleAt, serveDir, PADDLE_HEIGHT, BALL_RADIUS, board500]
  have h : (updateScore { sunkenPaddleState with
      ball := tentativeBall sunkenPaddleState noInputs }).2 = some 0 := by
    rw [updateScore_top _ hcond]
  exact ⟨h, (C1_amended_goal_override sunkenPaddleState noInputs 0 h).2.2.1⟩

theorem updatePaddles_spaceInput (s : GameState) :
    updatePaddles s spaceInput = s.paddles := rfl

/-- C6 counterexample: in the state `createState` builds, paddle 0 is
serving but the ball is initialized with speed 3, so a release on the
very first frame takes the free-flight branch: the serve state does
transition to `None`, but the committed angle is the initial `π/3`, not
`π/2`. -/
theorem C6_counterexample :
    (createState 500 500).servingPaddle = some 0 ∧
    spaceInput.space = true ∧
    (updateState (createState 500 500) spaceInput).servingPaddle = none ∧
    (updateState (createState 500 500) spaceInput).ball.angle ≠ Real.pi / 2 := by
  have hsq0 : (0 : ℝ) ≤ Real.sqrt 3 := Real.sqrt_nonneg 3
  have hsq2 : Real.sqrt 3 < 2 := by
    have h4 : (2 : ℝ) = Real.sqrt 4 := by
      rw [show (4 : ℝ) = 2 ^ 2 by norm_num, Real.sqrt_sq (by norm_num : (0 : ℝ) ≤ 2)]
    rw [h4]
    exact Real.sqrt_lt_sqrt (by norm_num) (by norm_num)
  have hcos : Real.cos (Real.pi / 3) = 1 / 2 := Real.cos_pi_div_three
  have hsin : Real.sin (Real.pi / 3) = Real.sqrt 3 / 2 := Real.sin_pi_div_three
  have heuler : eulerPos (createState 500 500).ball =
      ⟨503 / 2, 55 / 2 + 3 * (Real.sqrt 3 / 2)⟩ := by
    simp [eulerPos, createState, hcos, hsin, PADDLE_OFFSET_Y, PADDLE_HEIGHT]
    norm_num
  have hpads := updatePaddles_spaceInput (createState 500 500)
  have hp1 : ¬ insidePaddle (eulerPos (createState 500 500).ball)
      (updatePaddles (createState 500 500) spaceInput).1 := by
    rw [heuler, hpads]
    simp only [insidePaddle, createState, PADDLE_WIDTH, PADDLE_HEIGHT, PADDLE_OFFSET_Y]
    rintro ⟨-, -, -, h4⟩
    norm_num at h4
    linarith
  have hp2 : ¬ insidePaddle (eulerPos (createState 500 500).ball)
      (updatePaddles (createState 500 500) spaceInput).2 := by
    rw [heuler, hpads]
    simp only [insidePaddle, createState, PADDLE_WIDTH, PADDLE_HEIGHT, PADDLE_OFFSET_Y]
    rintro ⟨-, -, h3, -⟩
    norm_num at h3
    linarith
  have ht := tentativeBall_flight (createState 500 500) spaceInput rfl
    (by norm_num [createState])
    hp1 hp2
    (by rw [heuler]
        norm_num [createState, BALL_RADIUS])
    (by rw [heuler]
        norm_num [createState, BALL_RADIUS])
  have hcond1 : ¬ (({ createState 500 500 with
      ball := tentativeBall (createState 500 500) spaceInput }).ball.pos.y - BALL_RADIUS <
      ({ createState 500 500 with
        ball := tentativeBall (createState 500 500) spaceInput }).boundaries.yMin) := by
    show ¬ ((tentativeBall (createState 500 500) spaceInput).pos.y - BALL_RADIUS <
      (createState 500 500).boundaries.yMin)
    rw [ht, heuler]
    norm_num [createState, BALL_RADIUS]
    linarith
  have hcond2 : ¬ (({ createState 500 500 with
      ball := tentativeBall (createState 500 500) spaceInput }).ball.pos.y + BALL_RADIUS >
      ({ createState 500 500 with
        ball := tentativeBall (createState 500 500) spaceInput }).boundaries.yMax) := by
    show ¬ ((tentativeBall (createState 500 500) spaceInput).pos.y + BALL_RADIUS >
      (createState 500 500).boundaries.yMax)
    rw [ht, heuler]
    norm_num [createState, BALL_RADIUS]
    linarith
  have hsc : (updateScore { createState 500 500 with
      ball := tentativeBall (createState 500 500) spaceInput }).2 = none := by
    rw [updateScore_still _ hcond1 hcond2]
  rw [updateState_noGoal _ _ hsc]
  refine ⟨rfl, rfl, rfl, ?_⟩
  show (tentativeBall (createState 500 500) spaceInput).angle ≠ Real.pi / 2
  rw [ht]
  show Real.pi / 3 ≠ Real.pi / 2
  intro hcon
  have hpi := Real.pi_pos
  linarith

/-- C6 amended: from a held state satisfying the held-ball invariant
(`ball.speed = 0`) whose release point does not breach a goal, a frame
with the release key pressed commits `servingPaddle = None`,
`ball.speed = BALL_SPEED`, angle exactly `π/2` for a paddle-0 serve and
`-π/2` for a paddle-1 serve, with the position unchanged; and any
following frame that meets no paddle, wall or goal advances the position
by exactly `BALL_SPEED · (cos angle, sin angle)`. -/
theorem C6_amended_release_serve (s : GameState) (i : Inputs) (k : Fin 2)
    (hs : s.servingPaddle = some k) (hsp : s.ball.speed = 0) (hi : i.space = true)
    (hng : (updateScore { s with ball := tentativeBall s i }).2 = none) :
    (updateState s i).servingPaddle = none ∧
    (updateState s i).ball.speed = BALL_SPEED ∧
    (updateState s i).ball.angle = (if k = 0 then Real.pi / 2 else -(Real.pi / 2)) ∧
    (updateState s i).ball.pos = s.ball.pos ∧
    (∀ j : Inputs,
      ¬ insidePaddle (eulerPos (updateState s i).ball) (updatePaddles (updateState s i) j).1 →
      ¬ insidePaddle (eulerPos (updateState s i).ball) (updatePaddles (updateState s i) j).2 →
      ¬ ((eulerPos (updateState s i).ball).x - BALL_RADIUS <
        (updateState s i).boundaries.xMin) →
      ¬ ((eulerPos (updateState s i).ball).x + BALL_RADIUS >
        (updateState s i).boundaries.xMax) →
      ¬ ((eulerPos (updateState s i).ball).y - BALL_RADIUS <
        (updateState s i).boundaries.yMin) →
      ¬ ((eulerPos (updateState s i).ball).y + BALL_RADIUS >
        (updateState s i).boundaries.yMax) →
      (updateState (updateState s i) j).ball.pos.x =
          (updateState s i).ball.pos.x + BALL_SPEED * Real.cos ((updateState s i).ball.angle) ∧
        (updateState (updateState s i) j).ball.pos.y =
          (updateState s i).ball.pos.y + BALL_SPEED * Real.sin ((updateState s i).ball.angle)) := by
  have ht := tentativeBall_release s i k hs hsp hi
  have hcommit := updateState_noGoal s i hng
  have hserve : (updateState s i).servingPaddle = none := by
    rw [hcommit]
    exact updateServingPaddle_release s i k hs hi
  have hball : (updateState s i).ball =
      { pos := s.ball.pos, speed := BALL_SPEED
        angle := if k = 0 then Real.pi / 2 else -(Real.pi / 2) } := by
    rw [hcommit]
    exact ht
  have hspeedne : ¬ (updateState s i).ball.speed = 0 := by
    rw [hball]
    norm_num [BALL_SPEED]
  refine ⟨hserve, by rw [hball], by rw [hball], by rw [hball], ?_⟩
  intro j hp1 hp2 hwl hwr hgt hgb
  have hstep := flight_step (updateState s i) j hserve hspeedne hp1 hp2 hwl hwr hgt hgb
  constructor
  · rw [hstep, hball]
    rfl
  · rw [hstep, hball]
    rfl

/-- Witness for C6: releasing an ordinary held serve (paddle 0, ball
pinned and stopped) transitions to free flight at the serve speed. -/
theorem C6_amended_release_serve_witness :
    (updateScore { heldState with ball := tentativeBall heldState spaceInput }).2 = none ∧
    (updateState heldState spaceInput).servingPaddle = none ∧
    (updateState heldState spaceInput).ball.speed = BALL_SPEED := by
  have ht := tentativeBall_release heldState spaceInput 0 rfl rfl rfl
  have h1 : ¬ (({ heldState with
      ball := tentativeBall heldState spaceInput }).ball.pos.y - BALL_RADIUS <
      ({ heldState with ball := tentativeBall heldState spaceInput }).boundaries.yMin) := by
    show ¬ ((tentativeBall heldState spaceInput).pos.y - BALL_RADIUS <
      heldState.boundaries.yMin)
    rw [ht]
    norm_num [heldState, BALL_RADIUS, board500]
  have h2 : ¬ (({ heldState with
      ball := tentativeBall heldState spaceInput }).ball.pos.y + BALL_RADIUS >
      ({ heldState with ball := tentativeBall heldState spaceInput }).boundaries.yMax) := by
    show ¬ ((tentativeBall heldState spaceInput).pos.y + BALL_RADIUS >
      heldState.boundaries.yMax)
    rw [ht]
    norm_num [heldState, BALL_RADIUS, board500]
  have hng : (updateScore { heldState with
      ball := tentativeBall heldState spaceInput }).2 = none := by
    rw [updateScore_still _ h1 h2]
  have main := C6_amended_release_serve heldState spaceInput 0 rfl rfl rfl hng
  exact ⟨hng, main.1, main.2.1⟩

end Breakout

end
